import Mathlib

/-!
Verification development for the swifty-ai-digester worker.

The worker consumes image-processing events from partitioned RabbitMQ
queues, runs a download → AI-transform → store pipeline, and acks /
republishes-with-backoff / dead-letters each message.  The definitions
below are a shallow embedding of the JavaScript source:

* `isRetryableError`, `determineErrorCode`, `calculateBackoff`,
  `handleReceivedMessage` embed the `ImageProcessingConsumer` class
  (src/infrastructure: the partitioned consumer revision that logs
  and records metrics is the current one; `calculateBackoffRev`
  embeds the earlier revision of the same method).
* `geminiProcessImage` embeds `GeminiService.processImage`.
* `geminiRetryGo` / `processImagePipeline` embed
  `ProcessImageFromEventUseCase.processImagePipeline`.
* `jsonParse` / `jsonStringify` are a model of the ECMAScript
  `JSON.parse` / `JSON.stringify` pair restricted to the fragment the
  worker exchanges: integer numbers and strings without escape
  sequences.  Whitespace is accepted by the reader and never produced
  by the writer, exactly as in ECMAScript.

Effects are made explicit: a handler returns the list of channel
actions it performed (`ChanAct`), and a thrown JavaScript exception is
an `Except.error`; `JsError` carries the `message`, `code` and
`retryable` properties the source reads, with `Option` standing for
JavaScript `undefined`.
-/

/-- JavaScript `x || d` on numbers as used by the config reads: `0` and
`undefined` are falsy, any other number is returned unchanged.  An
absent configuration value is modelled as `0`. -/
def jsOr (x d : Nat) : Nat := if x = 0 then d else x

/-- Truthiness of an optional boolean property (`undefined` is falsy). -/
def jsTruthy (b : Option Bool) : Bool := b.getD false

/-- JavaScript `s.includes(sub)`. -/
def strIncludes (s sub : String) : Bool :=
  s.toList.tails.any (fun t => sub.toList.isPrefixOf t)

/-- A JavaScript `Error` as the worker observes it: the `message`
string plus the optional `code` and `retryable` properties that the
services attach.  `none` models an absent (`undefined`) property. -/
structure JsError where
  message : String
  code : Option String := none
  retryable : Option Bool := none
deriving DecidableEq

/-- The opening-brace character, used when printing JSON objects. -/
def lbrace : Char := Char.ofNat 123

/-- The closing-brace character, used when printing JSON objects. -/
def rbrace : Char := Char.ofNat 125

/-- JSON values in the fragment exchanged by the worker: numbers are
integers and strings carry no escape sequences. -/
inductive Json where
  | null : Json
  | bool (b : Bool) : Json
  | num (n : Int) : Json
  | str (s : String) : Json
  | arr (elems : List Json) : Json
  | obj (fields : List (String × Json)) : Json

mutual

/-- `JSON.stringify` on the modelled fragment: no whitespace, fields in
insertion order. -/
def jsonStringify : Json → String
  | Json.null => "null"
  | Json.bool true => "true"
  | Json.bool false => "false"
  | Json.num n => toString n
  | Json.str s => "\"" ++ s ++ "\""
  | Json.arr xs => "[" ++ stringifyElems xs ++ "]"
  | Json.obj fs => String.mk [lbrace] ++ stringifyFields fs ++ String.mk [rbrace]

/-- Comma-separated serialisation of array elements. -/
def stringifyElems : List Json → String
  | [] => ""
  | [x] => jsonStringify x
  | x :: y :: xs => jsonStringify x ++ "," ++ stringifyElems (y :: xs)

/-- Comma-separated serialisation of object fields. -/
def stringifyFields : List (String × Json) → String
  | [] => ""
  | [(k, v)] => "\"" ++ k ++ "\":" ++ jsonStringify v
  | (k, v) :: f :: fs =>
      "\"" ++ k ++ "\":" ++ jsonStringify v ++ "," ++ stringifyFields (f :: fs)

end

/-- Drop leading JSON whitespace. -/
def skipWs : List Char → List Char
  | c :: cs => if c = ' ' ∨ c = '\n' ∨ c = '\t' ∨ c = '\r' then skipWs cs else c :: cs
  | [] => []

/-- Consume an expected literal suffix such as `rue` of `true`. -/
def parseLit : List Char → List Char → Option (List Char)
  | [], rest => some rest
  | l :: ls, c :: rest => if c = l then parseLit ls rest else none
  | _ :: _, [] => none

/-- Read the remainder of a string literal (opening quote already
consumed); escape sequences are outside the modelled fragment. -/
def parseStrChars : List Char → Option (String × List Char)
  | [] => none
  | c :: rest =>
      if c = '"' then some ("", rest)
      else if c = '\\' then none
      else (parseStrChars rest).map (fun p => (String.mk [c] ++ p.1, p.2))

/-- Read a run of decimal digits (the head is known to be a digit). -/
def parseNatChars : List Char → Nat → Nat × List Char
  | c :: rest, acc =>
      if c.isDigit then parseNatChars rest (acc * 10 + (c.toNat - 48)) else (acc, c :: rest)
  | [], acc => (acc, [])

mutual

/-- Recursive-descent reader for the modelled JSON fragment; `fuel`
bounds the recursion depth and is chosen large enough by `jsonParse`. -/
def parseVal : Nat → List Char → Option (Json × List Char)
  | 0, _ => none
  | Nat.succ fuel, cs =>
      match skipWs cs with
      | [] => none
      | c :: rest =>
          if c = '"' then (parseStrChars rest).map (fun p => (Json.str p.1, p.2))
          else if c = 't' then (parseLit ['r', 'u', 'e'] rest).map (fun r => (Json.bool true, r))
          else if c = 'f' then
            (parseLit ['a', 'l', 's', 'e'] rest).map (fun r => (Json.bool false, r))
          else if c = 'n' then (parseLit ['u', 'l', 'l'] rest).map (fun r => (Json.null, r))
          else if c = '-' then
            match rest with
            | d :: ds =>
                if d.isDigit then
                  let p := parseNatChars (d :: ds) 0
                  some (Json.num (-(Int.ofNat p.1)), p.2)
                else none
            | [] => none
          else if c.isDigit then
            let p := parseNatChars (c :: rest) 0
            some (Json.num (Int.ofNat p.1), p.2)
          else if c = '[' then
            match skipWs rest with
            | c2 :: r2 =>
                if c2 = ']' then some (Json.arr [], r2)
                else (parseArrElems fuel (c2 :: r2)).map (fun p => (Json.arr p.1, p.2))
            | [] => none
          else if c = lbrace then
            match skipWs rest with
            | c2 :: r2 =>
                if c2 = rbrace then some (Json.obj [], r2)
                else (parseObjFields fuel (c2 :: r2)).map (fun p => (Json.obj p.1, p.2))
            | [] => none
          else none

/-- Non-empty comma-separated array elements up to `]`. -/
def parseArrElems : Nat → List Char → Option (List Json × List Char)
  | 0, _ => none
  | Nat.succ fuel, cs =>
      match parseVal fuel cs with
      | none => none
      | some (v, rest) =>
          match skipWs rest with
          | c :: r2 =>
              if c = ',' then (parseArrElems fuel r2).map (fun p => (v :: p.1, p.2))
              else if c = ']' then some ([v], r2)
              else none
          | [] => none

/-- Non-empty comma-separated object fields up to the closing brace. -/
def parseObjFields : Nat → List Char → Option (List (String × Json) × List Char)
  | 0, _ => none
  | Nat.succ fuel, cs =>
      match skipWs cs with
      | c :: rest =>
          if c = '"' then
            match parseStrChars rest with
            | none => none
            | some (key, r1) =>
                match skipWs r1 with
                | c2 :: r2 =>
                    if c2 = ':' then
                      match parseVal fuel r2 with
                      | none => none
                      | some (v, r3) =>
                          match skipWs r3 with
                          | c3 :: r4 =>
                              if c3 = ',' then
                                (parseObjFields fuel r4).map (fun p => ((key, v) :: p.1, p.2))
                              else if c3 = rbrace then some ([(key, v)], r4)
                              else none
                          | [] => none
                    else none
                | [] => none
          else none
      | [] => none

end

/-- `JSON.parse` on the modelled fragment: `none` is a thrown
`SyntaxError`. -/
def jsonParse (s : String) : Option Json :=
  match parseVal (s.length + 2) s.toList with
  | some (v, rest) => if skipWs rest = [] then some v else none
  | none => none

example : jsonParse "not json" = none := rfl
example : jsonParse (String.mk [lbrace] ++ "\"a\": 1" ++ String.mk [rbrace]) =
    some (Json.obj [("a", Json.num 1)]) := rfl
example : jsonStringify (Json.obj [("a", Json.num 1)]) =
    String.mk [lbrace] ++ "\"a\":1" ++ String.mk [rbrace] := rfl

/-- The message codes `ImageProcessingConsumer.#isRetryableError` treats
as retryable. -/
def retryableErrorCodes : List String :=
  ["ECONNREFUSED", "ETIMEDOUT", "RATE_LIMIT_EXCEEDED",
   "CLOUDINARY_TIMEOUT", "GEMINI_TIMEOUT", "PROCESSING_TIMEOUT"]

/-- `#isRetryableError(error)`: true when any retryable code occurs as a
substring of `error.message` or equals `error.code`.  Note that the
`error.retryable` property is never consulted. -/
def isRetryableError (e : JsError) : Bool :=
  retryableErrorCodes.any (fun c => strIncludes e.message c || e.code == some c)

/-- `#determineErrorCode(error)`: first matching substring wins. -/
def determineErrorCode (e : JsError) : String :=
  if strIncludes e.message "PROCESSING_TIMEOUT" then "PROCESSING_TIMEOUT"
  else if strIncludes e.message "Gemini" then "GEMINI_API_ERROR"
  else if strIncludes e.message "Cloudinary" then "CLOUDINARY_ERROR"
  else if strIncludes e.message "download" then "IMAGE_DOWNLOAD_ERROR"
  else if strIncludes e.message "timeout" then "TIMEOUT_ERROR"
  else if strIncludes e.message "rate limit" then "RATE_LIMIT_ERROR"
  else "UNKNOWN_ERROR"

/-- The `catch` clause of `ProcessImageFromEventUseCase.execute`: a
pipeline error whose message is exactly `PROCESSING_TIMEOUT` gets
`error.retryable = false` before being rethrown to the consumer. -/
def markTimeoutNonRetryable (e : JsError) : JsError :=
  if e.message = "PROCESSING_TIMEOUT" then { e with retryable := some false } else e

/-- Retry configuration as read from `config.retry`; `0` models an
unset (`undefined`) value, which is falsy exactly like `0` under the
`||`-defaulting the consumer applies. -/
structure RetryCfg where
  maxRetries : Nat := 0
  delay1 : Nat := 0
  delay2 : Nat := 0
  delay3 : Nat := 0
deriving DecidableEq

/-- `#MAX_RETRIES = config.retry.maxRetries || 3`. -/
def maxRetriesOf (cfg : RetryCfg) : Nat := jsOr cfg.maxRetries 3

/-- The `delays` array built inside `#calculateBackoff`:
`[delay1 || 5000, delay2 || 15000, delay3 || 30000]`. -/
def delaysOf (cfg : RetryCfg) : List Nat :=
  [jsOr cfg.delay1 5000, jsOr cfg.delay2 15000, jsOr cfg.delay3 30000]

/-- `#calculateBackoff(retryCount)` of the current consumer revision:
`delays[retryCount] || 30000`, where an out-of-range index yields
`undefined` (falsy, modelled as `0`). -/
def calculateBackoff (cfg : RetryCfg) (retryCount : Nat) : Nat :=
  jsOr ((delaysOf cfg).getD retryCount 0) 30000

/-- `#calculateBackoff(retryCount)` of the earlier consumer revision:
`config.retry.delays[retryCount] || delays[delays.length - 1]`; the
result is `undefined` (`none`) when both reads are out of range, as
happens for every index on an empty `delays` array. -/
def calculateBackoffRev (delays : List Nat) (retryCount : Nat) : Option Nat :=
  match delays.get? retryCount with
  | some d => if d = 0 then delays.get? (delays.length - 1) else some d
  | none => delays.get? (delays.length - 1)

/-- JavaScript string interpolation of the `x-partition` header value:
an absent header prints as `undefined`. -/
def partStr : Option Nat → String
  | some p => toString p
  | none => "undefined"

/-- Headers of a received delivery, as the consumer reads them. -/
structure MsgHeaders where
  xRetryCount : Option Nat := none
  xPartition : Option Nat := none
deriving DecidableEq

/-- A received delivery: raw content bytes (as a string) and headers. -/
structure RMessage where
  content : String
  headers : MsgHeaders := {}
deriving DecidableEq

/-- Success value of `processImageUseCase.execute`, as returned by the
current `processImagePipeline` revision. -/
structure PipelineResult where
  imageId : String := ""
  processedUrl : String := ""
  publicId : String := ""
  style : String := ""
  processingTime : Nat := 0
deriving DecidableEq

/-- Channel effects of one `#handleReceivedMessage` run, in program
order.  `publishOutcome` is a `#publishEvent` attempt on the
`image.results` fan-out exchange (it swallows its own failures);
`republish` records the `#requeueWithDelay` publish with its exchange,
routing key, payload bytes, headers and backoff delay; `nack` carries
the `requeue` flag (the source always passes `multiple = false`). -/
inductive ChanAct where
  | executeUseCase : ChanAct
  | publishOutcome (eventType : String) (errorCode : Option String)
      (retryCount : Option Nat) : ChanAct
  | republish (exchange routingKey payload : String) (xPartition : Option Nat)
      (xRetryCount delayMs : Nat) : ChanAct
  | ack : ChanAct
  | nack (requeue : Bool) : ChanAct
deriving DecidableEq

/-- The `SyntaxError` thrown by `JSON.parse` on malformed content. -/
def jsonSyntaxError : JsError := { message := "SyntaxError: Unexpected token" }

/-- `ImageProcessingConsumer.#handleReceivedMessage` as a function from
the delivery and the outcomes of its collaborators to the list of
channel actions, or to the exception that escapes the handler
(`Except.error`: the async callback rejects and neither ack nor nack
is issued).

* `execOutcome` is the behaviour of `processImageUseCase.execute` on
  the parsed event (the use case receives `event.payload`; any
  exception it raises — including the `TypeError` raised when the
  field is absent — is the `.error` case).
* `requeueOutcome` is the outcome of the `channel.publish` performed
  inside `#requeueWithDelay`; its rejection propagates through the
  `await` in the catch block.
* Logging and metric calls do not touch the channel and are omitted.

Control flow from the source: parse the content; on success run the
use case, publish `ImageProcessed` and ack.  In the catch block,
`parsedEvent = event || JSON.parse(content)` re-parses (and so
re-throws) when the original parse failed; otherwise a retryable error
below `#MAX_RETRIES` is republished with an incremented
`x-retry-count` and the original is acked, and every other error
publishes `image.failed` and nacks with `requeue = false`. -/
def handleReceivedMessage (cfg : RetryCfg) (exchangeName : String)
    (execOutcome : Json → Except JsError PipelineResult)
    (requeueOutcome : Except JsError Unit)
    (msg : RMessage) : Except JsError (List ChanAct) :=
  let retryCount := msg.headers.xRetryCount.getD 0
  let partition := msg.headers.xPartition
  match jsonParse msg.content with
  | none => Except.error jsonSyntaxError
  | some event =>
      match execOutcome event with
      | Except.ok _result =>
          Except.ok [ChanAct.executeUseCase,
                     ChanAct.publishOutcome "ImageProcessed" none none,
                     ChanAct.ack]
      | Except.error e =>
          if isRetryableError e ∧ retryCount < maxRetriesOf cfg then
            match requeueOutcome with
            | Except.error pubErr => Except.error pubErr
            | Except.ok _ =>
                Except.ok [ChanAct.executeUseCase,
                           ChanAct.republish exchangeName
                             ("image.uploaded.partition." ++ partStr partition)
                             (jsonStringify event) partition (retryCount + 1)
                             (calculateBackoff cfg retryCount),
                           ChanAct.ack]
          else
            Except.ok [ChanAct.executeUseCase,
                       ChanAct.publishOutcome "image.failed"
                         (some (determineErrorCode e)) (some retryCount),
                       ChanAct.nack false]

/-- Image bytes. -/
abbrev ByteSeq : Type := List Nat

/-- What `GeminiService.extractTextAndImage` finds in a successful
backend response: either an inline image (already base64-decoded to its
bytes) or no image part. -/
inductive GeminiResponse where
  | image (data : ByteSeq) : GeminiResponse
  | noImage : GeminiResponse
deriving DecidableEq

/-- `GeminiService.processImage(imageBuffer, style)` as a function of
the backend call outcome.  A successful response with an inline image
returns its decoded bytes; a response with no image part returns the
input buffer unchanged (pass-through).  When the backend call throws,
the catch block may set `retryable`/`code` on the *original* error
object (rate-limit detection), but what it throws is a fresh
`new Error("GEMINI_TIMEOUT: " + error.message)`, which carries neither
property — so the mutation is invisible to the caller and is omitted
here. -/
def geminiProcessImage (backend : Except JsError GeminiResponse)
    (imageBuffer : ByteSeq) : Except JsError ByteSeq :=
  match backend with
  | Except.ok (GeminiResponse.image data) => Except.ok data
  | Except.ok GeminiResponse.noImage => Except.ok imageBuffer
  | Except.error e =>
      Except.error { message := "GEMINI_TIMEOUT: " ++ e.message }

/-- The inner transform retry loop of `processImagePipeline`
(`while (retryCount <= MAX_RETRIES)`, `MAX_RETRIES = 5`): on success
break; on an error with a truthy `retryable` while `retryCount < 5`,
increment `retryCount`, sleep `2 ^ retryCount` seconds and try again;
otherwise rethrow.  `fuel` is the number of retries still allowed,
`5 - retryCount`, so `fuel = 0` is exactly the failed guard
`retryCount < 5`; `attempt k` is the outcome of the `k`-th
`geminiService.processImage` call and the returned list collects the
sleeps (in ms) in order. -/
def geminiRetryGo (attempt : Nat → Except JsError ByteSeq)
    (retryCount : Nat) : Nat → Except JsError ByteSeq × List Nat
  | 0 =>
      match attempt retryCount with
      | Except.ok buf => (Except.ok buf, [])
      | Except.error e => (Except.error e, [])
  | Nat.succ fuel =>
      match attempt retryCount with
      | Except.ok buf => (Except.ok buf, [])
      | Except.error e =>
          if jsTruthy e.retryable then
            let next := geminiRetryGo attempt (retryCount + 1) fuel
            (next.1, 2 ^ (retryCount + 1) * 1000 :: next.2)
          else (Except.error e, [])

/-- The inner retry loop entered as the source enters it:
`retryCount = 0`, so five retries remain. -/
def geminiRetryLoop (attempt : Nat → Except JsError ByteSeq) :
    Except JsError ByteSeq × List Nat :=
  geminiRetryGo attempt 0 5

/-- The fields of the Cloudinary upload result the pipeline reads. -/
structure UploadResult where
  public_id : String := ""
  secure_url : String := ""
deriving DecidableEq

/-- The fields of the event payload the pipeline reads into its result
(`originalImageUrl` is consumed by the download, which is modelled by
its outcome). -/
structure EventPayload where
  imageId : String := ""
  style : String := ""
deriving DecidableEq

/-- `downloadImageFromUrl(url)`: wraps any axios failure in a fresh
`Error` with a `Failed to download image: ` prefix. -/
def downloadImageFromUrl (axiosResult : Except JsError ByteSeq) :
    Except JsError ByteSeq :=
  match axiosResult with
  | Except.ok buf => Except.ok buf
  | Except.error e =>
      Except.error { message := "Failed to download image: " ++ e.message }

/-- Environment of one `processImagePipeline` run: the outcomes of the
three collaborators and the clock.  `clock i` is the value returned by
the `i`-th `Date.now()` call in the pipeline body; the source makes
seven such calls on the all-success path, in this order:
0 `downloadStart`, 1 end of download, 2 `geminiStart`, 3 end of the
transform phase, 4 `cloudinaryStart`, 5 inside the `public_id`
template, 6 end of upload.  `uploadOutcome` is a function of the bytes
handed to `cloudinaryService.uploadImage`. -/
structure PipelineEnv where
  axiosResult : Except JsError ByteSeq
  geminiBackend : Nat → Except JsError GeminiResponse
  uploadOutcome : ByteSeq → Except JsError UploadResult
  clock : Nat → Nat

/-- The `phases` object mutated by the pipeline (milliseconds per
phase; a field is `none` until the phase completes). -/
structure Phases where
  download : Option Nat := none
  gemini : Option Nat := none
  cloudinary : Option Nat := none
deriving DecidableEq

/-- Observable trace of one pipeline run: recorded phase timings, the
inner-retry sleeps, and the bytes handed to the store stage (if it was
reached). -/
structure PipelineTrace where
  phases : Phases := {}
  sleeps : List Nat := []
  storedBuffer : Option ByteSeq := none
deriving DecidableEq

/-- `ProcessImageFromEventUseCase.processImagePipeline` (current
revision): download, transform under the inner retry loop, upload, and
a success record whose `processingTime` is
`phases.download + phases.gemini + phases.cloudinary`. -/
def processImagePipeline (env : PipelineEnv) (payload : EventPayload) :
    Except JsError PipelineResult × PipelineTrace :=
  let downloadStart := env.clock 0
  match downloadImageFromUrl env.axiosResult with
  | Except.error e => (Except.error e, {})
  | Except.ok imageBuffer =>
      let dDur := env.clock 1 - downloadStart
      let phases1 : Phases := { download := some dDur }
      let geminiStart := env.clock 2
      let attempt := fun k => geminiProcessImage (env.geminiBackend k) imageBuffer
      match geminiRetryGo attempt 0 5 with
      | (Except.error e, sleeps) =>
          (Except.error e, { phases := phases1, sleeps := sleeps })
      | (Except.ok processedBuffer, sleeps) =>
          let gDur := env.clock 3 - geminiStart
          let phases2 : Phases := { phases1 with gemini := some gDur }
          let cloudinaryStart := env.clock 4
          match env.uploadOutcome processedBuffer with
          | Except.error e =>
              (Except.error e,
               { phases := phases2, sleeps := sleeps,
                 storedBuffer := some processedBuffer })
          | Except.ok up =>
              let cDur := env.clock 6 - cloudinaryStart
              let phases3 : Phases := { phases2 with cloudinary := some cDur }
              (Except.ok
                 { imageId := payload.imageId
                   processedUrl := up.secure_url
                   publicId := up.public_id
                   style := payload.style
                   processingTime := dDur + gDur + cDur },
               { phases := phases3, sleeps := sleeps,
                 storedBuffer := some processedBuffer })

theorem geminiRetryGo_sleeps_shape (attempt : Nat → Except JsError ByteSeq) :
    ∀ (fuel rc : Nat), ∃ n ≤ fuel,
      (geminiRetryGo attempt rc fuel).2 =
        (List.range n).map (fun i => 2 ^ (rc + i + 1) * 1000) := by
  intro fuel
  induction fuel with
  | zero =>
      intro rc
      refine ⟨0, Nat.le_refl 0, ?_⟩
      unfold geminiRetryGo
      cases attempt rc <;> simp
  | succ f ih =>
      intro rc
      rcases ha : attempt rc with e | buf
      · by_cases hr : jsTruthy e.retryable
        · rcases ih (rc + 1) with ⟨n, hn, hs⟩
          refine ⟨n + 1, Nat.succ_le_succ hn, ?_⟩
          unfold geminiRetryGo
          rw [ha]
          simp only [hr, if_true, List.range_succ_eq_map, List.map_cons, List.map_map]
          refine congrArg₂ List.cons (by ring_nf) ?_
          rw [hs]
          apply List.map_congr_left
          intro i _
          simp [Function.comp, Nat.add_comm, Nat.add_assoc, Nat.add_left_comm]
        · refine ⟨0, Nat.zero_le _, ?_⟩
          unfold geminiRetryGo
          rw [ha]
          simp [hr]
      · refine ⟨0, Nat.zero_le _, ?_⟩
        unfold geminiRetryGo
        rw [ha]
        simp

theorem geminiRetryGo_nonretryable (attempt : Nat → Except JsError ByteSeq)
    (fuel rc : Nat) (e : JsError) (ha : attempt rc = Except.error e)
    (hr : jsTruthy e.retryable = false) :
    geminiRetryGo attempt rc fuel = (Except.error e, []) := by
  cases fuel with
  | zero => unfold geminiRetryGo; rw [ha]
  | succ f => unfold geminiRetryGo; rw [ha]; simp [hr]

theorem geminiRetryGo_all_fail (attempt : Nat → Except JsError ByteSeq)
    (errf : Nat → JsError) (ha : ∀ k, attempt k = Except.error (errf k))
    (hr : ∀ k, jsTruthy (errf k).retryable = true) :
    ∀ (fuel rc : Nat),
      geminiRetryGo attempt rc fuel =
        (Except.error (errf (rc + fuel)),
         (List.range fuel).map (fun i => 2 ^ (rc + i + 1) * 1000)) := by
  intro fuel
  induction fuel with
  | zero =>
      intro rc
      unfold geminiRetryGo
      rw [ha rc]
      simp
  | succ f ih =>
      intro rc
      unfold geminiRetryGo
      rw [ha rc]
      simp only [hr rc, if_true]
      rw [ih (rc + 1)]
      simp only [List.range_succ_eq_map, List.map_cons, List.map_map]
      refine congrArg₂ Prod.mk (congrArg (fun k => Except.error (errf k)) (by omega)) ?_
      refine congrArg₂ List.cons (by ring_nf) ?_
      apply List.map_congr_left
      intro i _
      simp [Function.comp, Nat.add_comm, Nat.add_assoc, Nat.add_left_comm]

theorem geminiRetryGo_first_ok (attempt : Nat → Except JsError ByteSeq)
    (fuel rc : Nat) (buf : ByteSeq) (ha : attempt rc = Except.ok buf) :
    geminiRetryGo attempt rc fuel = (Except.ok buf, []) := by
  cases fuel with
  | zero => unfold geminiRetryGo; rw [ha]
  | succ f => unfold geminiRetryGo; rw [ha]

theorem processImagePipeline_ok_shape (env : PipelineEnv) (payload : EventPayload)
    (res : PipelineResult) (tr : PipelineTrace)
    (h : processImagePipeline env payload = (Except.ok res, tr)) :
    res.processingTime =
      (env.clock 1 - env.clock 0) + (env.clock 3 - env.clock 2) +
        (env.clock 6 - env.clock 4) ∧
    tr.phases =
      { download := some (env.clock 1 - env.clock 0)
        gemini := some (env.clock 3 - env.clock 2)
        cloudinary := some (env.clock 6 - env.clock 4) } := by
  unfold processImagePipeline at h
  rcases hdl : downloadImageFromUrl env.axiosResult with e | buf
  · rw [hdl] at h
    simp at h
  · rw [hdl] at h
    rcases hg : geminiRetryGo (fun k => geminiProcessImage (env.geminiBackend k) buf) 0 5
      with ⟨gres, sleeps⟩
    simp only [hg] at h
    cases gres with
    | error e => simp at h
    | ok pbuf =>
        rcases hu : env.uploadOutcome pbuf with e | up
        · simp only [hu] at h
          simp at h
        · simp only [hu] at h
          obtain ⟨hres, htr⟩ := Prod.mk.injEq .. ▸ h
          cases hres
          cases htr
          exact ⟨rfl, rfl⟩

theorem handle_parse_fail (cfg : RetryCfg) (exch : String)
    (exec : Json → Except JsError PipelineResult) (rq : Except JsError Unit)
    (msg : RMessage) (h : jsonParse msg.content = none) :
    handleReceivedMessage cfg exch exec rq msg = Except.error jsonSyntaxError := by
  unfold handleReceivedMessage
  rw [h]

theorem handle_success (cfg : RetryCfg) (exch : String)
    (exec : Json → Except JsError PipelineResult) (rq : Except JsError Unit)
    (msg : RMessage) (event : Json) (r : PipelineResult)
    (hp : jsonParse msg.content = some event) (he : exec event = Except.ok r) :
    handleReceivedMessage cfg exch exec rq msg =
      Except.ok [ChanAct.executeUseCase,
                 ChanAct.publishOutcome "ImageProcessed" none none,
                 ChanAct.ack] := by
  unfold handleReceivedMessage
  simp only [hp, he]

theorem handle_retry (cfg : RetryCfg) (exch : String)
    (exec : Json → Except JsError PipelineResult)
    (msg : RMessage) (event : Json) (e : JsError)
    (hp : jsonParse msg.content = some event) (he : exec event = Except.error e)
    (hr : isRetryableError e = true)
    (hc : msg.headers.xRetryCount.getD 0 < maxRetriesOf cfg) :
    handleReceivedMessage cfg exch exec (Except.ok ()) msg =
      Except.ok [ChanAct.executeUseCase,
                 ChanAct.republish exch
                   ("image.uploaded.partition." ++ partStr msg.headers.xPartition)
                   (jsonStringify event) msg.headers.xPartition
                   (msg.headers.xRetryCount.getD 0 + 1)
                   (calculateBackoff cfg (msg.headers.xRetryCount.getD 0)),
                 ChanAct.ack] := by
  unfold handleReceivedMessage
  simp only [hp, he]
  simp [hr, hc]

theorem handle_retry_requeue_fail (cfg : RetryCfg) (exch : String)
    (exec : Json → Except JsError PipelineResult) (pubErr : JsError)
    (msg : RMessage) (event : Json) (e : JsError)
    (hp : jsonParse msg.content = some event) (he : exec event = Except.error e)
    (hr : isRetryableError e = true)
    (hc : msg.headers.xRetryCount.getD 0 < maxRetriesOf cfg) :
    handleReceivedMessage cfg exch exec (Except.error pubErr) msg =
      Except.error pubErr := by
  unfold handleReceivedMessage
  simp only [hp, he]
  simp [hr, hc]

theorem handle_dlq (cfg : RetryCfg) (exch : String)
    (exec : Json → Except JsError PipelineResult) (rq : Except JsError Unit)
    (msg : RMessage) (event : Json) (e : JsError)
    (hp : jsonParse msg.content = some event) (he : exec event = Except.error e)
    (hc : ¬(isRetryableError e = true ∧ msg.headers.xRetryCount.getD 0 < maxRetriesOf cfg)) :
    handleReceivedMessage cfg exch exec rq msg =
      Except.ok [ChanAct.executeUseCase,
                 ChanAct.publishOutcome "image.failed"
                   (some (determineErrorCode e))
                   (some (msg.headers.xRetryCount.getD 0)),
                 ChanAct.nack false] := by
  unfold handleReceivedMessage
  simp only [hp, he]
  simp only [if_neg hc]

/-- C7: if the transform backend raises no error but returns no image
payload, `GeminiService.processImage` returns the downloaded buffer
unchanged, so the bytes handed to the store stage equal the input
bytes and the pipeline still completes as a success (given the store
succeeds). -/
theorem transform_passthrough_preserves_bytes (env : PipelineEnv)
    (payload : EventPayload) (buf : ByteSeq) (up : UploadResult)
    (hdl : env.axiosResult = Except.ok buf)
    (hg : env.geminiBackend 0 = Except.ok GeminiResponse.noImage)
    (hu : env.uploadOutcome buf = Except.ok up) :
    (processImagePipeline env payload).2.storedBuffer = some buf ∧
    (processImagePipeline env payload).1 =
      Except.ok
        { imageId := payload.imageId
          processedUrl := up.secure_url
          publicId := up.public_id
          style := payload.style
          processingTime :=
            (env.clock 1 - env.clock 0) + (env.clock 3 - env.clock 2) +
              (env.clock 6 - env.clock 4) } := by
  have hat : (fun k => geminiProcessImage (env.geminiBackend k) buf) 0 =
      Except.ok buf := by
    show geminiProcessImage (env.geminiBackend 0) buf = Except.ok buf
    rw [hg]
    rfl
  have hloop := geminiRetryGo_first_ok
    (fun k => geminiProcessImage (env.geminiBackend k) buf) 5 0 buf hat
  unfold processImagePipeline
  rw [hdl]
  simp only [downloadImageFromUrl, hloop, hu]
  exact ⟨by trivial, by trivial⟩

/-- Closed instance of the pass-through law. -/
theorem transform_passthrough_preserves_bytes_witness :
    (processImagePipeline
        { axiosResult := Except.ok [9, 9, 9]
          geminiBackend := fun _ => Except.ok GeminiResponse.noImage
          uploadOutcome := fun _ => Except.ok { public_id := "p", secure_url := "u" }
          clock := fun i => i }
        { imageId := "i1", style := "anime" }).2.storedBuffer = some [9, 9, 9] ∧
    (processImagePipeline
        { axiosResult := Except.ok [9, 9, 9]
          geminiBackend := fun _ => Except.ok GeminiResponse.noImage
          uploadOutcome := fun _ => Except.ok { public_id := "p", secure_url := "u" }
          clock := fun i => i }
        { imageId := "i1", style := "anime" }).1 =
      Except.ok
        { imageId := "i1", processedUrl := "u", publicId := "p", style := "anime"
          processingTime := (1 - 0) + (3 - 2) + (6 - 4) } :=
  transform_passthrough_preserves_bytes _ _ [9, 9, 9]
    { public_id := "p", secure_url := "u" } rfl rfl rfl

/-- C8: the inner transform retry loop performs at most five retries,
sleeps `2 ^ k` seconds on the `k`-th retry (1-based), rethrows a
non-retryable error immediately without sleeping, and rethrows the
last error once the cap is exceeded. -/
theorem transform_inner_retry_policy (attempt : Nat → Except JsError ByteSeq) :
    ((geminiRetryLoop attempt).2.length ≤ 5) ∧
    ((geminiRetryLoop attempt).2 =
        (List.range (geminiRetryLoop attempt).2.length).map
          (fun k => 2 ^ (k + 1) * 1000)) ∧
    (∀ e, attempt 0 = Except.error e → jsTruthy e.retryable = false →
        geminiRetryLoop attempt = (Except.error e, [])) ∧
    (∀ errf : Nat → JsError, (∀ k, attempt k = Except.error (errf k)) →
        (∀ k, jsTruthy (errf k).retryable = true) →
        geminiRetryLoop attempt =
          (Except.error (errf 5), [2000, 4000, 8000, 16000, 32000])) := by
  obtain ⟨n, hn, hs⟩ := geminiRetryGo_sleeps_shape attempt 5 0
  refine ⟨?_, ?_, ?_, ?_⟩
  · unfold geminiRetryLoop
    rw [hs]
    simpa using hn
  · have hs2 : (geminiRetryLoop attempt).2 =
        (List.range n).map (fun i => 2 ^ (0 + i + 1) * 1000) := hs
    rw [hs2]
    simp
  · intro e ha hr
    exact geminiRetryGo_nonretryable attempt 5 0 e ha hr
  · intro errf ha hr
    have := geminiRetryGo_all_fail attempt errf ha hr 5 0
    unfold geminiRetryLoop
    rw [this]
    rfl

/-- Closed instance of the inner retry policy: five retries with
exponential sleeps, then the last error is rethrown. -/
theorem transform_inner_retry_policy_witness :
    geminiRetryLoop
        (fun _ => Except.error
          { message := "RATE_LIMIT_EXCEEDED", retryable := some true }) =
      (Except.error { message := "RATE_LIMIT_EXCEEDED", retryable := some true },
       [2000, 4000, 8000, 16000, 32000]) :=
  (transform_inner_retry_policy
      (fun _ => Except.error
        { message := "RATE_LIMIT_EXCEEDED", retryable := some true })).2.2.2
    (fun _ => { message := "RATE_LIMIT_EXCEEDED", retryable := some true })
    (fun _ => rfl) (fun _ => rfl)

/-- C9: on every successful pipeline run the returned `processingTime`
is the sum of the three recorded phase timings, and this differs from
the wall-clock span of the run (last `Date.now()` minus first) on
environments with inter-phase gaps. -/
theorem processing_time_sum_of_phases :
    (∀ (env : PipelineEnv) (payload : EventPayload) (res : PipelineResult)
        (tr : PipelineTrace),
        processImagePipeline env payload = (Except.ok res, tr) →
        res.processingTime =
          tr.phases.download.getD 0 + tr.phases.gemini.getD 0 +
            tr.phases.cloudinary.getD 0) ∧
    (∃ (env : PipelineEnv) (payload : EventPayload) (res : PipelineResult)
        (tr : PipelineTrace),
        processImagePipeline env payload = (Except.ok res, tr) ∧
        res.processingTime ≠ env.clock 6 - env.clock 0) := by
  constructor
  · intro env payload res tr h
    obtain ⟨ht, hp⟩ := processImagePipeline_ok_shape env payload res tr h
    rw [ht, hp]
    rfl
  · refine ⟨{ axiosResult := Except.ok [1]
              geminiBackend := fun _ => Except.ok (GeminiResponse.image [2])
              uploadOutcome := fun _ => Except.ok { public_id := "p", secure_url := "u" }
              clock := fun i => 10 * i },
            { imageId := "i1", style := "s" },
            { imageId := "i1", processedUrl := "u", publicId := "p", style := "s"
              processingTime := 40 },
            { phases := { download := some 10, gemini := some 10, cloudinary := some 20 }
              sleeps := [], storedBuffer := some [2] },
            rfl, by decide⟩

/-- Closed instance of the phase-sum law at a concrete environment. -/
theorem processing_time_sum_of_phases_witness :
    (({ imageId := "i1", processedUrl := "u", publicId := "p", style := "s"
        processingTime := 40 } : PipelineResult)).processingTime =
      (({ phases := { download := some 10, gemini := some 10, cloudinary := some 20 }
          sleeps := [], storedBuffer := some [2] } : PipelineTrace)).phases.download.getD 0 +
        (({ phases := { download := some 10, gemini := some 10, cloudinary := some 20 }
            sleeps := [], storedBuffer := some [2] } : PipelineTrace)).phases.gemini.getD 0 +
        (({ phases := { download := some 10, gemini := some 10, cloudinary := some 20 }
            sleeps := [], storedBuffer := some [2] } : PipelineTrace)).phases.cloudinary.getD 0 :=
  processing_time_sum_of_phases.1
    { axiosResult := Except.ok [1]
      geminiBackend := fun _ => Except.ok (GeminiResponse.image [2])
      uploadOutcome := fun _ => Except.ok { public_id := "p", secure_url := "u" }
      clock := fun i => 10 * i }
    { imageId := "i1", style := "s" } _ _ rfl

/-- C10: every error escaping `GeminiService.processImage` is a fresh
`Error` whose message is `GEMINI_TIMEOUT: ` prepended to the original
message and which carries neither `retryable` nor `code`; hence the
inner retry branch, which tests `error.retryable`, is never taken for
errors propagated out of the transform service, and the loop never
sleeps. -/
theorem gemini_rewrap_drops_retry_flag :
    (∀ (e : JsError) (buf : ByteSeq),
        geminiProcessImage (Except.error e) buf =
          Except.error
            { message := "GEMINI_TIMEOUT: " ++ e.message
              code := none, retryable := none }) ∧
    (∀ (backend : Nat → Except JsError GeminiResponse) (buf : ByteSeq),
        (geminiRetryLoop
            (fun k => geminiProcessImage (backend k) buf)).2 = []) := by
  constructor
  · intro e buf
    rfl
  · intro backend buf
    rcases hb : backend 0 with e | resp
    · have ha : (fun k => geminiProcessImage (backend k) buf) 0 =
          Except.error { message := "GEMINI_TIMEOUT: " ++ e.message } := by
        show geminiProcessImage (backend 0) buf = _
        rw [hb]
        rfl
      have hsl := geminiRetryGo_nonretryable
        (fun k => geminiProcessImage (backend k) buf) 5 0
        { message := "GEMINI_TIMEOUT: " ++ e.message } ha rfl
      unfold geminiRetryLoop
      rw [hsl]
    · cases resp with
      | image data =>
          have ha : (fun k => geminiProcessImage (backend k) buf) 0 =
              Except.ok data := by
            show geminiProcessImage (backend 0) buf = _
            rw [hb]
            rfl
          unfold geminiRetryLoop
          rw [geminiRetryGo_first_ok _ 5 0 data ha]
      | noImage =>
          have ha : (fun k => geminiProcessImage (backend k) buf) 0 =
              Except.ok buf := by
            show geminiProcessImage (backend 0) buf = _
            rw [hb]
            rfl
          unfold geminiRetryLoop
          rw [geminiRetryGo_first_ok _ 5 0 buf ha]

/-- C1: the ack discipline has two gaps.  With non-JSON content the
catch block re-parses the invalid content, so the `SyntaxError` is
rethrown and the handler rejects with neither ack nor nack; when the
deferred republish rejects, the awaited error escapes the catch block
before the ack of the original, again issuing neither ack nor nack.
`Except.error` carries no action list: no channel call was made. -/
theorem ack_discipline_gap :
    (handleReceivedMessage {} "pixpro.processing"
        (fun _ => Except.ok {}) (Except.ok ())
        { content := "not json" } = Except.error jsonSyntaxError) ∧
    (handleReceivedMessage {} "pixpro.processing"
        (fun _ => Except.error { message := "GEMINI_TIMEOUT: boom" })
        (Except.error { message := "channel closed" })
        { content := "\"x\"", headers := { xRetryCount := some 0 } } =
      Except.error { message := "channel closed" }) :=
  ⟨rfl, rfl⟩

/-- C2: a pipeline-deadline timeout is classified RETRYABLE by the
consumer, contrary to the claim.  The use case sets
`error.retryable = false` on the `PROCESSING_TIMEOUT` error, but
`#isRetryableError` never reads that flag and lists
`PROCESSING_TIMEOUT` among its retryable codes, so the message is
handed to the backoff/republish path whenever
`retryCount < MAX_RETRIES`. -/
theorem timeout_classified_retryable :
    (isRetryableError
        (markTimeoutNonRetryable { message := "PROCESSING_TIMEOUT" }) = true) ∧
    (determineErrorCode
        (markTimeoutNonRetryable { message := "PROCESSING_TIMEOUT" }) =
      "PROCESSING_TIMEOUT") ∧
    (handleReceivedMessage {} "pixpro.processing"
        (fun _ => Except.error
          (markTimeoutNonRetryable { message := "PROCESSING_TIMEOUT" }))
        (Except.ok ())
        { content := "\"x\"", headers := { xRetryCount := some 0, xPartition := some 1 } } =
      Except.ok [ChanAct.executeUseCase,
                 ChanAct.republish "pixpro.processing" "image.uploaded.partition.1"
                   "\"x\"" (some 1) 1 5000,
                 ChanAct.ack]) :=
  ⟨rfl, rfl, rfl⟩

/-- C3, counterexample: a message received with
`x-retry-count = 4 > MAX_RETRIES = 3` is NOT routed to the DLQ
immediately — the use case executes and, when it succeeds, the message
is acked, not nacked. -/
theorem high_retry_executes_and_acks :
    (handleReceivedMessage {} "pixpro.processing"
        (fun _ => Except.ok {}) (Except.ok ())
        { content := "\"x\"", headers := { xRetryCount := some 4, xPartition := some 0 } } =
      Except.ok [ChanAct.executeUseCase,
                 ChanAct.publishOutcome "ImageProcessed" none none,
                 ChanAct.ack]) ∧
    ChanAct.executeUseCase ∈
      [ChanAct.executeUseCase,
       ChanAct.publishOutcome "ImageProcessed" none none,
       ChanAct.ack] ∧
    ChanAct.nack false ∉
      [ChanAct.executeUseCase,
       ChanAct.publishOutcome "ImageProcessed" none none,
       ChanAct.ack] :=
  ⟨rfl, by decide, by decide⟩

/-- C3, amended: there is no ingress check — a message with
`retryCount > MAX_RETRIES` still executes the pipeline; it is acked on
success, and only on failure (retryable or not, since the republish
branch requires `retryCount < MAX_RETRIES`) is it sent to the DLQ with
an `image.failed` event and a `requeue = false` nack. -/
theorem high_retry_no_ingress_dlq (cfg : RetryCfg) (exch : String)
    (exec : Json → Except JsError PipelineResult) (msg : RMessage) (event : Json)
    (hp : jsonParse msg.content = some event)
    (hgt : maxRetriesOf cfg < msg.headers.xRetryCount.getD 0) :
    (∀ r, exec event = Except.ok r →
        ∀ rq, handleReceivedMessage cfg exch exec rq msg =
          Except.ok [ChanAct.executeUseCase,
                     ChanAct.publishOutcome "ImageProcessed" none none,
                     ChanAct.ack]) ∧
    (∀ e, exec event = Except.error e →
        ∀ rq, handleReceivedMessage cfg exch exec rq msg =
          Except.ok [ChanAct.executeUseCase,
                     ChanAct.publishOutcome "image.failed"
                       (some (determineErrorCode e))
                       (some (msg.headers.xRetryCount.getD 0)),
                     ChanAct.nack false]) := by
  constructor
  · intro r hr rq
    exact handle_success cfg exch exec rq msg event r hp hr
  · intro e he rq
    refine handle_dlq cfg exch exec rq msg event e hp he ?_
    rintro ⟨-, hlt⟩
    omega

/-- Closed instance of the amended C3 behaviour at `retryCount = 4`. -/
theorem high_retry_no_ingress_dlq_witness :
    handleReceivedMessage {} "pixpro.processing"
        (fun _ => Except.error { message := "GEMINI_TIMEOUT: boom" }) (Except.ok ())
        { content := "\"x\"", headers := { xRetryCount := some 4, xPartition := some 0 } } =
      Except.ok [ChanAct.executeUseCase,
                 ChanAct.publishOutcome "image.failed"
                   (some "UNKNOWN_ERROR") (some 4),
                 ChanAct.nack false] :=
  (high_retry_no_ingress_dlq {} "pixpro.processing"
      (fun _ => Except.error { message := "GEMINI_TIMEOUT: boom" })
      { content := "\"x\"", headers := { xRetryCount := some 4, xPartition := some 0 } }
      (Json.str "x") rfl (by decide)).2
    { message := "GEMINI_TIMEOUT: boom" } rfl (Except.ok ())

/-- C4: with a retryable error at `retryCount = MAX_RETRIES` the
handler performs no republish, publishes one `image.failed` outcome
event carrying that `retryCount`, and nacks with `requeue = false`;
and one step below the cap it republishes instead.  The boundary is
exactly `retryCount < MAX_RETRIES`. -/
theorem dlq_boundary_exactly_at_cap (cfg : RetryCfg) (exch : String)
    (exec : Json → Except JsError PipelineResult) (msg : RMessage) (event : Json)
    (e : JsError) (hp : jsonParse msg.content = some event)
    (he : exec event = Except.error e) (hr : isRetryableError e = true) :
    (msg.headers.xRetryCount.getD 0 = maxRetriesOf cfg →
        ∀ rq, handleReceivedMessage cfg exch exec rq msg =
          Except.ok [ChanAct.executeUseCase,
                     ChanAct.publishOutcome "image.failed"
                       (some (determineErrorCode e))
                       (some (msg.headers.xRetryCount.getD 0)),
                     ChanAct.nack false]) ∧
    (msg.headers.xRetryCount.getD 0 < maxRetriesOf cfg →
        handleReceivedMessage cfg exch exec (Except.ok ()) msg =
          Except.ok [ChanAct.executeUseCase,
                     ChanAct.republish exch
                       ("image.uploaded.partition." ++ partStr msg.headers.xPartition)
                       (jsonStringify event) msg.headers.xPartition
                       (msg.headers.xRetryCount.getD 0 + 1)
                       (calculateBackoff cfg (msg.headers.xRetryCount.getD 0)),
                     ChanAct.ack]) := by
  constructor
  · intro hcap rq
    refine handle_dlq cfg exch exec rq msg event e hp he ?_
    rintro ⟨-, hlt⟩
    omega
  · intro hlt
    exact handle_retry cfg exch exec msg event e hp he hr hlt

/-- Closed instance of the DLQ boundary at `retryCount = 3 =
MAX_RETRIES` for a rate-limit error. -/
theorem dlq_boundary_exactly_at_cap_witness :
    handleReceivedMessage {} "pixpro.processing"
        (fun _ => Except.error { message := "RATE_LIMIT_EXCEEDED" }) (Except.ok ())
        { content := "\"x\"", headers := { xRetryCount := some 3, xPartition := some 2 } } =
      Except.ok [ChanAct.executeUseCase,
                 ChanAct.publishOutcome "image.failed"
                   (some "UNKNOWN_ERROR") (some 3),
                 ChanAct.nack false] :=
  (dlq_boundary_exactly_at_cap {} "pixpro.processing"
      (fun _ => Except.error { message := "RATE_LIMIT_EXCEEDED" })
      { content := "\"x\"", headers := { xRetryCount := some 3, xPartition := some 2 } }
      (Json.str "x") { message := "RATE_LIMIT_EXCEEDED" } rfl rfl rfl).1 rfl
    (Except.ok ())

/-- C5, counterexample: the republished payload is
`JSON.stringify(JSON.parse(content))`, not the received bytes — for a
message whose JSON carries whitespace the republished payload differs
from the original content, so the payload is not byte-for-byte the
received event. -/
theorem republish_payload_reserialised :
    (handleReceivedMessage {} "pixpro.processing"
        (fun _ => Except.error { message := "RATE_LIMIT_EXCEEDED" }) (Except.ok ())
        { content := String.mk [lbrace] ++ "\"a\": 1" ++ String.mk [rbrace]
          headers := { xRetryCount := some 0, xPartition := some 7 } } =
      Except.ok [ChanAct.executeUseCase,
                 ChanAct.republish "pixpro.processing" "image.uploaded.partition.7"
                   (String.mk [lbrace] ++ "\"a\":1" ++ String.mk [rbrace]) (some 7) 1 5000,
                 ChanAct.ack]) ∧
    (String.mk [lbrace] ++ "\"a\":1" ++ String.mk [rbrace]) ≠
      (String.mk [lbrace] ++ "\"a\": 1" ++ String.mk [rbrace]) :=
  ⟨rfl, by decide⟩

/-- C5, amended: every republish goes to the bus exchange with routing
key `image.uploaded.partition.<partition>`, header `x-partition` equal
to the original partition, header `x-retry-count` equal to the original
retry count plus one, and payload `JSON.stringify` of the parsed
original event (the same event value, though not necessarily the same
bytes as received); republishing implies the retry count was below
`MAX_RETRIES`. -/
theorem republish_header_and_payload_shape (cfg : RetryCfg) (exch : String)
    (exec : Json → Except JsError PipelineResult) (rq : Except JsError Unit)
    (msg : RMessage) (acts : List ChanAct)
    (ex rk pl : String) (xp : Option Nat) (xrc d : Nat)
    (hh : handleReceivedMessage cfg exch exec rq msg = Except.ok acts)
    (hm : ChanAct.republish ex rk pl xp xrc d ∈ acts) :
    ∃ event, jsonParse msg.content = some event ∧
      ex = exch ∧
      rk = "image.uploaded.partition." ++ partStr msg.headers.xPartition ∧
      pl = jsonStringify event ∧
      xp = msg.headers.xPartition ∧
      xrc = msg.headers.xRetryCount.getD 0 + 1 ∧
      d = calculateBackoff cfg (msg.headers.xRetryCount.getD 0) ∧
      msg.headers.xRetryCount.getD 0 < maxRetriesOf cfg := by
  unfold handleReceivedMessage at hh
  rcases hpc : jsonParse msg.content with - | event
  · rw [hpc] at hh
    cases hh
  · rw [hpc] at hh
    refine ⟨event, rfl, ?_⟩
    rcases hex : exec event with e | r
    · simp only [hex] at hh
      by_cases hcond : isRetryableError e = true ∧
          msg.headers.xRetryCount.getD 0 < maxRetriesOf cfg
      · rw [if_pos hcond] at hh
        rcases rq with pubErr | u
        · cases hh
        · cases hh
          simp only [List.mem_cons, List.not_mem_nil, or_false] at hm
          rcases hm with h1 | h2 | h3
          · cases h1
          · injection h2 with e1 e2 e3 e4 e5 e6
            exact ⟨e1, e2, e3, e4, e5, e6, hcond.2⟩
          · cases h3
      · rw [if_neg hcond] at hh
        cases hh
        simp only [List.mem_cons, List.not_mem_nil, or_false] at hm
        rcases hm with h1 | h2 | h3
        · cases h1
        · cases h2
        · cases h3
    · simp only [hex] at hh
      cases hh
      simp only [List.mem_cons, List.not_mem_nil, or_false] at hm
      rcases hm with h1 | h2 | h3
      · cases h1
      · cases h2
      · cases h3

/-- Closed instance of the republish shape at a concrete message. -/
theorem republish_header_and_payload_shape_witness :
    ∃ event, jsonParse (String.mk [lbrace] ++ "\"a\": 1" ++ String.mk [rbrace]) =
        some event ∧
      "pixpro.processing" = "pixpro.processing" ∧
      "image.uploaded.partition.7" = "image.uploaded.partition." ++ partStr (some 7) ∧
      (String.mk [lbrace] ++ "\"a\":1" ++ String.mk [rbrace]) = jsonStringify event ∧
      (some 7 : Option Nat) = some 7 ∧
      1 = (some 0 : Option Nat).getD 0 + 1 ∧
      5000 = calculateBackoff {} ((some 0 : Option Nat).getD 0) ∧
      (some 0 : Option Nat).getD 0 < maxRetriesOf {} :=
  republish_header_and_payload_shape {} "pixpro.processing"
    (fun _ => Except.error { message := "RATE_LIMIT_EXCEEDED" }) (Except.ok ())
    { content := String.mk [lbrace] ++ "\"a\": 1" ++ String.mk [rbrace]
      headers := { xRetryCount := some 0, xPartition := some 7 } }
    [ChanAct.executeUseCase,
     ChanAct.republish "pixpro.processing" "image.uploaded.partition.7"
       (String.mk [lbrace] ++ "\"a\":1" ++ String.mk [rbrace]) (some 7) 1 5000,
     ChanAct.ack]
    "pixpro.processing" "image.uploaded.partition.7"
    (String.mk [lbrace] ++ "\"a\":1" ++ String.mk [rbrace]) (some 7) 1 5000
    rfl (by simp)

theorem jsOr_pos (x d : Nat) (hd : d ≠ 0) : jsOr x d ≠ 0 := by
  unfold jsOr
  split
  · exact hd
  · assumption

theorem jsOr_id (x : Nat) (d : Nat) (hx : x ≠ 0) : jsOr x d = x := by
  unfold jsOr
  rw [if_neg hx]

/-- C6, counterexample: the backoff is NOT clamped to the last element
of the delays list when the index overruns — `#calculateBackoff`
returns the constant fallback `30000`, which differs from a configured
last delay of `45000`; and the earlier revision of the method applied
to an empty delays array yields `undefined` (`none`), not a `30000`
fallback.  The overrun index 3 is reachable, since
`3 < MAX_RETRIES = 5` under this configuration. -/
theorem backoff_fallback_not_last_element :
    (calculateBackoff { maxRetries := 5, delay3 := 45000 } 3 = 30000) ∧
    ((delaysOf { maxRetries := 5, delay3 := 45000 }).getLast? = some 45000) ∧
    ((30000 : Nat) ≠ 45000) ∧
    (calculateBackoffRev [] 0 = none) ∧
    (3 < maxRetriesOf { maxRetries := 5, delay3 := 45000 }) :=
  ⟨rfl, rfl, by decide, rfl, by decide⟩

/-- C6, amended: the delay for a retry is
`delays[newRetryCount - 1]` (the source passes the pre-increment
`retryCount`) while the index is inside the three-element delays list,
and the constant fallback `30000` — the default last element, not the
configured one — once the index overruns; the delays list as built is
never empty (each entry is defaulted), and the earlier revision
returns `undefined` rather than `30000` on an empty configured delays
array. -/
theorem backoff_selection_total :
    (∀ (cfg : RetryCfg) (retryCount : Nat),
        calculateBackoff cfg retryCount = (delaysOf cfg).getD retryCount 30000) ∧
    (∀ retryCount, calculateBackoffRev [] retryCount = none) := by
  constructor
  · intro cfg rc
    match rc with
    | 0 => exact jsOr_id _ 30000 (jsOr_pos cfg.delay1 5000 (by decide))
    | 1 => exact jsOr_id _ 30000 (jsOr_pos cfg.delay2 15000 (by decide))
    | 2 => exact jsOr_id _ 30000 (jsOr_pos cfg.delay3 30000 (by decide))
    | Nat.succ (Nat.succ (Nat.succ n)) => rfl
  · intro rc
    cases rc <;> rfl
